import Mathlib

/-!
# Verification of the pinelab-vendure-plugins repository

Shallow embedding of the two plugins described by the repository:

* the sort-by-popularity plugin: an HTTP controller
  (`OrderByPopularityController`, `src/unnamed/part_000`) that enqueues a
  score-calculation job, and a scoring service that computes per-product
  popularity scores from the channel's settled orders and aggregates them up
  the collection tree.  The scoring service itself is not part of the source
  tree (only its controller and its e2e test are), so it is modelled from the
  spec, with the numeric behaviour pinned down by the e2e test
  (`test/e2e.spec.ts`).

* the stripe-subscription plugin: `StripeSubscriptionService`
  (`src/packages/vendure-plugin-stripe-subscription/src/stripe-subscription.service.ts`),
  embedded as explicit state passing over a world record, with external
  effects (calls to the payment provider) recorded in an effect list and
  fallible framework operations driven by boolean oracles in the world.
-/

namespace PinelabPopularity

/-- A line of an order: which product it references and the quantity bought.
(The e2e test operates through product variants; the claims are stated per
product, so lines are modelled at product granularity.) -/
structure OrderLine where
  productId : Nat
  quantity : Nat
  deriving Repr, DecidableEq

/-- An order as the scoring service sees it: the channel it was placed in,
whether it is settled, and its lines. -/
structure SOrder where
  channelToken : String
  settled : Bool
  lines : List OrderLine
  deriving Repr, DecidableEq

/-- Modelled from the spec: the scoring service "queries historical settled
orders per channel" — the settled orders belonging to the given channel. -/
def settledOrdersForChannel (token : String) (orders : List SOrder) : List SOrder :=
  orders.filter (fun o => o.settled && o.channelToken == token)

/-- Order volume of one product inside a list of orders: total quantity over
all lines referencing the product. -/
def orderVolumeFor (pid : Nat) (orders : List SOrder) : Nat :=
  (orders.map (fun o =>
    ((o.lines.filter (fun l => l.productId == pid)).map OrderLine.quantity).sum)).sum

/-- Modelled from the spec: the scoring service "computes a score per product"
from the channel's settled-order volume.  The e2e test fixes the scale: the
best-selling product scores 1000 and other products score proportionally
(10 units → 1000, 8 units → 800), so the volume is normalised against the
maximum volume over the channel's products; a product with no settled orders
has volume 0 and scores 0. -/
def productScore (token : String) (orders : List SOrder) (products : List Nat)
    (pid : Nat) : Nat :=
  let so := settledOrdersForChannel token orders
  let maxVol := (products.map (fun q => orderVolumeFor q so)).foldr Nat.max 0
  if maxVol = 0 then 0 else orderVolumeFor pid so * 1000 / maxVol

/-- A collection tree: a collection id, the products directly in the
collection, and the child collections. -/
inductive CTree : Type where
  | node (id : Nat) (productIds : List Nat) (children : List CTree)
  deriving Repr

/-- Root collection id of a tree. -/
def CTree.rootId : CTree → Nat
  | .node i _ _ => i

mutual
/-- All collection ids occurring in a tree. -/
def treeIds : CTree → List Nat
  | .node i _ cs => i :: forestIds cs

/-- All collection ids occurring in a forest. -/
def forestIds : List CTree → List Nat
  | [] => []
  | t :: ts => treeIds t ++ forestIds ts
end

mutual
/-- All subtrees of a tree (the tree itself included): one per collection. -/
def subtreesT : CTree → List CTree
  | .node i ps cs => .node i ps cs :: subtreesF cs

/-- All subtrees of the trees of a forest. -/
def subtreesF : List CTree → List CTree
  | [] => []
  | t :: ts => subtreesT t ++ subtreesF ts
end

/-- The direct score of a collection: the sum of the (already computed)
popularity scores of the products directly in it. -/
def directColScore (ps : Nat → Nat) (productIds : List Nat) : Nat :=
  (productIds.map ps).sum

mutual
/-- Denotational total of a subtree: the collection's direct score plus the
totals of all its descendants. -/
def treeTotal (ps : Nat → Nat) : CTree → Nat
  | .node _ pids cs => directColScore ps pids + forestTotal ps cs

/-- Denotational total of a forest. -/
def forestTotal (ps : Nat → Nat) : List CTree → Nat
  | [] => 0
  | t :: ts => treeTotal ps t + forestTotal ps ts
end

mutual
/-- Modelled from the spec: the job "walks the collection tree bottom-up
summing child scores into parent collections".  The walk threads the stored
collection-score map: children are processed first, then the parent's stored
score is set to its direct score plus the stored scores of its children. -/
def walkTree (ps : Nat → Nat) (m : Nat → Nat) : CTree → (Nat → Nat)
  | .node i pids cs =>
    let m1 := walkForest ps m cs
    fun x => if x = i then
      directColScore ps pids + ((cs.map CTree.rootId).map m1).sum
    else m1 x

/-- Bottom-up walk over a forest, threading the stored score map. -/
def walkForest (ps : Nat → Nat) (m : Nat → Nat) : List CTree → (Nat → Nat)
  | [] => m
  | t :: ts => walkForest ps (walkTree ps m t) ts
end

/-- A request context, as passed by the framework to the controller (only its
identity matters to this model). -/
structure Ctx where
  id : Nat
  deriving Repr, DecidableEq

/-- A queued score-calculation job: the channel token taken from the HTTP path
and the request context the controller received. -/
structure SJob where
  channelToken : String
  ctx : Ctx
  deriving Repr, DecidableEq

/-- The persistent state the popularity plugin acts on: the channel's
products, the order history, the collection tree, the persisted
popularityScore custom fields of products and collections, and the job
queue supplied by the host. -/
structure PopState where
  products : List Nat
  orders : List SOrder
  tree : CTree
  productScores : Nat → Nat
  collectionScores : Nat → Nat
  jobQueue : List SJob

/-- Modelled from the spec: `SortService.addScoreCalculatingJobToQueue`
(called by the controller but not part of the source tree) — adds a
score-calculation job for the given channel token and request context to the
job queue supplied by the host. -/
def addScoreCalculatingJobToQueue (token : String) (ctx : Ctx) (s : PopState) :
    PopState :=
  { s with jobQueue := s.jobQueue ++ [⟨token, ctx⟩] }

/-- `OrderByPopularityController.calculateScores` (src/unnamed/part_000):
the GET /order-by-popularity/calculate-scores/:mychanneltoken handler awaits
`sortService.addScoreCalculatingJobToQueue(token, ctx)` and returns. -/
def calculateScores (ctx : Ctx) (token : String) (s : PopState) : PopState :=
  addScoreCalculatingJobToQueue token ctx s

/-- Modelled from the spec: the score-calculation job — computes and persists
each product's score from the channel's settled orders, then walks the
collection tree bottom-up summing child scores into parent collections. -/
def runScoreCalculationJob (token : String) (s : PopState) : PopState :=
  let ps := fun pid =>
    if s.products.contains pid then productScore token s.orders s.products pid
    else s.productScores pid
  { s with
    productScores := ps
    collectionScores := walkTree ps s.collectionScores s.tree }

/-- An externally observable event of the popularity plugin: a change of the
underlying order data, an HTTP trigger of the controller, or the host's job
queue running the next queued job. -/
inductive PopEvent where
  | addSettledOrder (o : SOrder)
  | httpCalculateScores (ctx : Ctx) (token : String)
  | runNextJob

/-- One step of the popularity plugin's behaviour under an event. -/
def popStep (s : PopState) : PopEvent → PopState
  | .addSettledOrder o => { s with orders := s.orders ++ [o] }
  | .httpCalculateScores ctx token => calculateScores ctx token s
  | .runNextJob =>
    match s.jobQueue with
    | [] => s
    | j :: rest => runScoreCalculationJob j.channelToken { s with jobQueue := rest }

/-- Running a whole trace of events. -/
def popRun (s : PopState) : List PopEvent → PopState
  | [] => s
  | e :: es => popRun (popStep s e) es

end PinelabPopularity

namespace StripeSub

/-! ## Data model of the stripe-subscription service

Embeds `StripeSubscriptionService`
(src/packages/vendure-plugin-stripe-subscription/src/stripe-subscription.service.ts)
as explicit state passing: the framework entities the service touches live in
a `StripeWorld`, calls to the external payment provider are recorded as
effects, and the outcomes of fallible framework/provider operations are
driven by boolean oracles carried in the world. -/

/-- JavaScript truthiness of an optional string: `undefined` and the empty
string are falsy (the service guards use `!value`). -/
def strTruthy : Option String → Bool
  | none => false
  | some s => !(s == "")

/-- JavaScript truthiness of an optional number: `undefined` and 0 are
falsy (the `!endDate` guard). -/
def natTruthy : Option Nat → Bool
  | none => false
  | some n => !(n == 0)

/-- One argument of a payment-method handler (`handler.args`). -/
structure HandlerArg where
  name : String
  value : String
  deriving Repr, DecidableEq

/-- A payment method: its code and its handler arguments. -/
structure SPaymentMethod where
  code : String
  handlerArgs : List HandlerArg
  deriving Repr, DecidableEq

/-- `handler.args.find(arg => arg.name === n)?.value`. -/
def findArgValue (args : List HandlerArg) (n : String) : Option String :=
  (args.find? (fun a => a.name == n)).map HandlerArg.value

/-- An order customer (only the email address is read by the service). -/
structure SCustomer where
  emailAddress : String
  deriving Repr, DecidableEq

/-- A payment on an order: the payment-method code and the subscription id
stored in the payment metadata. -/
structure SPayment where
  method : String
  subscriptionId : String
  deriving Repr, DecidableEq

/-- An order line (only its presence matters to the service). -/
structure SLine where
  productVariantId : Nat
  deriving Repr, DecidableEq

/-- A shipping line (only its presence matters to the service). -/
structure ShippingLine where
  shippingMethodId : Nat
  deriving Repr, DecidableEq

/-- An order as the service sees it. -/
structure VOrder where
  id : Nat
  code : String
  state : String
  lines : List SLine
  customer : Option SCustomer
  shippingLines : List ShippingLine
  payments : List SPayment
  deriving Repr, DecidableEq

/-- An order-history entry created through `historyService` (an ORDER_NOTE;
the note text is modelled by the message the service passes). -/
structure HistoryEntry where
  orderId : Nat
  note : String
  deriving Repr, DecidableEq

/-- The metadata of an incoming checkout webhook.  Metadata values may be
absent; `endDate` is a unix timestamp in seconds. -/
structure WebhookMetadata where
  orderCode : Option String
  channelToken : Option String
  paymentMethodCode : Option String
  endDate : Option Nat
  deriving Repr, DecidableEq

/-- The `data.object` of an incoming checkout webhook. -/
structure CheckoutEventData where
  metadata : WebhookMetadata
  status : String
  subscription : String
  deriving Repr, DecidableEq

/-- An error thrown by the service: `UserInputError` or a plain `Error`. -/
inductive SErr where
  | userInput (msg : String)
  | failure (msg : String)
  deriving Repr, DecidableEq

/-- A call made to the external payment provider. -/
inductive Effect where
  | createCheckoutSession (orderCode channelToken paymentMethodCode : String)
  | updateSubscription (subscriptionId : String) (cancelAt : Nat)
  deriving Repr, DecidableEq

/-- The world the service operates in: the channel of the request context,
the session's active order, the persisted orders, the configured payment
methods, the order history, the outcome oracles for fallible operations, and
the url of the checkout session the provider would create. -/
structure StripeWorld where
  channelToken : String
  activeOrder : Option VOrder
  orders : List VOrder
  paymentMethods : List SPaymentMethod
  history : List HistoryEntry
  transitionOk : Bool
  addPaymentOk : Bool
  stripeUpdateOk : Bool
  sessionUrl : Option String

/-- `getPaymentMethodByCode`: find the payment method with the given code. -/
def getPaymentMethodByCode (w : StripeWorld) (code : String) : Option SPaymentMethod :=
  w.paymentMethods.find? (fun pm => pm.code == code)

/-- `StripeHandlerConfig` (the stripe client is represented by its api key). -/
structure StripeHandlerConfig where
  apiKey : String
  redirectUrl : String
  downpaymentLabel : Option String
  prorationLabel : Option String
  deriving Repr, DecidableEq

/-- `getStripeHandler`: look up the payment method and its `apiKey` and
`redirectUrl` handler arguments; throws `UserInputError` when the method is
missing or either argument is falsy. -/
def getStripeHandler (w : StripeWorld) (paymentMethodCode : String) :
    Except SErr StripeHandlerConfig :=
  match getPaymentMethodByCode w paymentMethodCode with
  | none => .error (.userInput ("No paymentMethod found with code " ++ paymentMethodCode))
  | some pm =>
    let apiKey := findArgValue pm.handlerArgs "apiKey"
    let redirectUrl := findArgValue pm.handlerArgs "redirectUrl"
    if strTruthy apiKey && strTruthy redirectUrl then
      .ok ⟨apiKey.getD "", redirectUrl.getD "",
        findArgValue pm.handlerArgs "downpaymentLabel",
        findArgValue pm.handlerArgs "prorationLabel"⟩
    else
      .error (.userInput ("Paymentmethod " ++ pm.code ++ " has no apiKey or redirectUrl configured"))

/-- `createStripeSubscriptionPaymentLink`: guards on the active order, then
creates a checkout session at the payment provider and returns its url (or
throws when the created session has no url).  The function reads the world
and never writes it; the provider call is recorded as an effect. -/
def createStripeSubscriptionPaymentLink (w : StripeWorld) (paymentMethodCode : String) :
    Except SErr String × List Effect :=
  match w.activeOrder with
  | none => (.error (.userInput "No active order for session"), [])
  | some order =>
    if order.lines.length = 0 then
      (.error (.userInput "Cannot create payment intent for empty order"), [])
    else match order.customer with
    | none =>
      (.error (.userInput "Cannot create payment intent for order without customer"), [])
    | some _ =>
      if order.shippingLines.length = 0 then
        (.error (.userInput "Cannot create payment intent for order without shippingMethod"), [])
      else match getStripeHandler w paymentMethodCode with
      | .error e => (.error e, [])
      | .ok _ =>
        let eff := Effect.createCheckoutSession order.code w.channelToken paymentMethodCode
        match w.sessionUrl with
        | none => (.error (.failure "Failed to create payment link"), [eff])
        | some url => (.ok url, [eff])

/-- `orderService.findOneByCode`. -/
def findOneByCode (w : StripeWorld) (code : String) : Option VOrder :=
  w.orders.find? (fun o => o.code == code)

/-- Apply an update to the persisted order with the given id. -/
def updateOrderById (w : StripeWorld) (oid : Nat) (f : VOrder → VOrder) : StripeWorld :=
  { w with orders := w.orders.map (fun o => if o.id = oid then f o else o) }

/-- `logOrderHistory`: append an ORDER_NOTE history entry for the order. -/
def logOrderHistory (w : StripeWorld) (oid : Nat) (note : String) : StripeWorld :=
  { w with history := w.history ++ [⟨oid, note⟩] }

/-- The message carried by a service error. -/
def SErr.msg : SErr → String
  | .userInput m => m
  | .failure m => m

/-- `handlePaymentCompleteEvent`: validate the webhook metadata, ignore
events whose status is not complete, transition the order to
ArrangingPayment when needed, add the payment, and set the subscription end
date at the provider, recording history notes.  Returns the thrown error or
unit, the resulting world, and the provider calls made. -/
def handlePaymentCompleteEvent (w : StripeWorld) (ev : CheckoutEventData) :
    Except SErr Unit × StripeWorld × List Effect :=
  if ¬ strTruthy ev.metadata.orderCode then
    (.error (.failure "Incoming webhook is missing metadata.orderCode, cannot process this event"),
      w, [])
  else if ¬ strTruthy ev.metadata.channelToken then
    (.error (.failure "Incoming webhook is missing metadata.channelToken, cannot process this event"),
      w, [])
  else
    let orderCode := ev.metadata.orderCode.getD ""
    match findOneByCode w orderCode with
    | none => (.error (.failure ("Cannot find order with code " ++ orderCode)), w, [])
    | some order =>
      if ¬ strTruthy ev.metadata.paymentMethodCode then
        (.error (.failure "Incoming webhook is missing metadata.paymentMethodCode, cannot process this event"),
          w, [])
      else
        let paymentMethodCode := ev.metadata.paymentMethodCode.getD ""
        if ev.status ≠ "complete" then
          (.ok (), w, [])
        else
          let step1 : Except SErr StripeWorld :=
            if order.state = "ArrangingPayment" then .ok w
            else if w.transitionOk then
              .ok (updateOrderById w order.id fun o => { o with state := "ArrangingPayment" })
            else .error (.failure ("Error transitioning order " ++ order.code))
          match step1 with
          | .error e => (.error e, w, [])
          | .ok w1 =>
            if ¬ w.addPaymentOk then
              (.error (.failure ("Error adding payment to order " ++ order.code)), w1, [])
            else
              let subscriptionId := ev.subscription
              let w2 := updateOrderById w1 order.id fun o =>
                { o with payments := o.payments ++ [⟨paymentMethodCode, subscriptionId⟩] }
              if ¬ natTruthy ev.metadata.endDate then
                (.ok (),
                  logOrderHistory w2 order.id
                    ("!! Failed to set subscription end date for subscription "
                      ++ subscriptionId ++ "!"),
                  [])
              else
                let endDate := ev.metadata.endDate.getD 0
                match getStripeHandler w2 paymentMethodCode with
                | .error e =>
                  (.error e,
                    logOrderHistory w2 order.id
                      ("!! Failed to set subscription end date for subscription "
                        ++ subscriptionId ++ ": " ++ e.msg),
                    [])
                | .ok _ =>
                  if w.stripeUpdateOk then
                    (.ok (),
                      logOrderHistory w2 order.id
                        ("Updated subscription to end at " ++ toString endDate),
                      [Effect.updateSubscription subscriptionId endDate])
                  else
                    (.error (.failure "stripe subscription update failed"),
                      logOrderHistory w2 order.id
                        ("!! Failed to set subscription end date for subscription "
                          ++ subscriptionId ++ ": stripe subscription update failed"),
                      [Effect.updateSubscription subscriptionId endDate])

/-- A concrete payment method with apiKey and redirectUrl configured, for the
concrete instances below. -/
def examplePaymentMethod : SPaymentMethod :=
  ⟨"stripe-sub", [⟨"apiKey", "sk_123"⟩, ⟨"redirectUrl", "https://shop.example"⟩]⟩

/-- A concrete active order with one line, a customer and a shipping line. -/
def exampleOrder : VOrder :=
  ⟨1, "ORD1", "AddingItems", [⟨1⟩], some ⟨"c@example.com"⟩, [⟨1⟩], []⟩

/-- A concrete world: one persisted order, one payment method, all oracles
succeeding, and a session url available at the provider. -/
def exampleWorld : StripeWorld :=
  ⟨"ch", some exampleOrder, [exampleOrder], [examplePaymentMethod], [],
    true, true, true, some "https://pay.example"⟩

/-- A concrete complete checkout webhook event for the order above. -/
def exampleEvent : CheckoutEventData :=
  ⟨⟨some "ORD1", some "ch", some "stripe-sub", some 100⟩, "complete", "sub_1"⟩

end StripeSub

namespace PinelabPopularity

/-! ## Lemmas about the scoring model -/

theorem orderVolumeFor_eq_zero (pid : Nat) (orders : List SOrder)
    (h : ∀ o ∈ orders, ∀ l ∈ o.lines, l.productId ≠ pid) :
    orderVolumeFor pid orders = 0 := by
  unfold orderVolumeFor
  rw [List.sum_eq_zero]
  intro x hx
  rcases List.mem_map.mp hx with ⟨o, ho, rfl⟩
  have hfil : o.lines.filter (fun l => l.productId == pid) = [] := by
    rw [List.filter_eq_nil_iff]
    intro l hl
    simpa using h o ho l hl
  simp [hfil]

theorem productScore_eq_zero_of_no_orders (token : String) (orders : List SOrder)
    (products : List Nat) (pid : Nat)
    (h : ∀ o ∈ settledOrdersForChannel token orders, ∀ l ∈ o.lines,
          l.productId ≠ pid) :
    productScore token orders products pid = 0 := by
  have hvol := orderVolumeFor_eq_zero pid (settledOrdersForChannel token orders) h
  unfold productScore
  simp [hvol]

theorem runScoreCalculationJob_productScores (token : String) (s : PopState)
    (pid : Nat) (hmem : pid ∈ s.products) :
    (runScoreCalculationJob token s).productScores pid
      = productScore token s.orders s.products pid := by
  unfold runScoreCalculationJob
  simp only []
  rw [if_pos]
  simpa using hmem

/-- C1: for every product in a channel, the score-calculation job computes the
product's popularity score from the channel's historical settled orders and
persists it to the product's popularityScore custom field; a product with no
settled orders receives score 0. -/
theorem popularity_product_score_persisted (token : String) (s : PopState)
    (pid : Nat) (hmem : pid ∈ s.products) :
    (runScoreCalculationJob token s).productScores pid
      = productScore token s.orders s.products pid
    ∧ ((∀ o ∈ settledOrdersForChannel token s.orders, ∀ l ∈ o.lines,
          l.productId ≠ pid) →
        (runScoreCalculationJob token s).productScores pid = 0) := by
  refine ⟨runScoreCalculationJob_productScores token s pid hmem, fun h => ?_⟩
  rw [runScoreCalculationJob_productScores token s pid hmem]
  exact productScore_eq_zero_of_no_orders token s.orders s.products pid h

/-- Witness for C1: a concrete channel state — product 1 has ten settled
units, product 2 none; product 2's persisted score is 0. -/
theorem popularity_product_score_persisted_witness :
    (2 : Nat) ∈ [1, 2]
    ∧ (∀ o ∈ settledOrdersForChannel "ch"
          [⟨"ch", true, [⟨1, 10⟩]⟩, ⟨"other", true, [⟨2, 3⟩]⟩],
        ∀ l ∈ o.lines, l.productId ≠ 2)
    ∧ (runScoreCalculationJob "ch"
        ⟨[1, 2], [⟨"ch", true, [⟨1, 10⟩]⟩, ⟨"other", true, [⟨2, 3⟩]⟩],
          CTree.node 1 [] [], fun _ => 7, fun _ => 7, []⟩).productScores 2 = 0 := by
  refine ⟨by decide, by decide, ?_⟩
  exact (popularity_product_score_persisted "ch"
    ⟨[1, 2], [⟨"ch", true, [⟨1, 10⟩]⟩, ⟨"other", true, [⟨2, 3⟩]⟩],
      CTree.node 1 [] [], fun _ => 7, fun _ => 7, []⟩ 2 (by decide)).2 (by decide)

/-- C3: the GET calculate-scores/:mychanneltoken handler only enqueues a
score-calculation job carrying the path token and the request context; no
score is computed or persisted during request handling. -/
theorem controller_only_enqueues (ctx : Ctx) (token : String) (s : PopState) :
    (calculateScores ctx token s).productScores = s.productScores
    ∧ (calculateScores ctx token s).collectionScores = s.collectionScores
    ∧ (calculateScores ctx token s).orders = s.orders
    ∧ (calculateScores ctx token s).jobQueue = s.jobQueue ++ [⟨token, ctx⟩] :=
  ⟨rfl, rfl, rfl, rfl⟩

/-- C7: the scores computed by the job for a channel depend only on that
channel's settled orders — two runs on states that agree except possibly on
orders of other channels produce identical product and collection scores. -/
theorem popularity_channel_isolation (token : String) (s1 s2 : PopState)
    (hp : s1.products = s2.products) (ht : s1.tree = s2.tree)
    (hps : s1.productScores = s2.productScores)
    (hcs : s1.collectionScores = s2.collectionScores)
    (h : settledOrdersForChannel token s1.orders
          = settledOrdersForChannel token s2.orders) :
    (runScoreCalculationJob token s1).productScores
        = (runScoreCalculationJob token s2).productScores
    ∧ (runScoreCalculationJob token s1).collectionScores
        = (runScoreCalculationJob token s2).collectionScores := by
  have hscore : ∀ pid, productScore token s1.orders s1.products pid
      = productScore token s2.orders s2.products pid := by
    intro pid
    unfold productScore
    rw [h, hp]
  have hfun : (fun pid =>
      if s1.products.contains pid then productScore token s1.orders s1.products pid
      else s1.productScores pid)
      = (fun pid =>
      if s2.products.contains pid then productScore token s2.orders s2.products pid
      else s2.productScores pid) := by
    funext pid
    rw [hscore, hp, hps]
  constructor
  · simp only [runScoreCalculationJob]
    rw [hfun]
  · simp only [runScoreCalculationJob]
    rw [hfun, hcs, ht]

/-- Witness for C7: two order histories agreeing on channel "ch" but differing
wildly on channel "other" give identical score maps. -/
theorem popularity_channel_isolation_witness :
    ([1] : List Nat) = [1]
    ∧ settledOrdersForChannel "ch" [⟨"ch", true, [⟨1, 2⟩]⟩]
        = settledOrdersForChannel "ch"
            [⟨"other", true, [⟨1, 999⟩]⟩, ⟨"ch", true, [⟨1, 2⟩]⟩, ⟨"ch", false, [⟨1, 50⟩]⟩]
    ∧ ((runScoreCalculationJob "ch"
          ⟨[1], [⟨"ch", true, [⟨1, 2⟩]⟩], CTree.node 1 [1] [], fun _ => 0, fun _ => 0, []⟩).productScores
        = (runScoreCalculationJob "ch"
          ⟨[1], [⟨"other", true, [⟨1, 999⟩]⟩, ⟨"ch", true, [⟨1, 2⟩]⟩, ⟨"ch", false, [⟨1, 50⟩]⟩],
            CTree.node 1 [1] [], fun _ => 0, fun _ => 0, []⟩).productScores) := by
  refine ⟨rfl, by decide, ?_⟩
  exact (popularity_channel_isolation "ch"
    ⟨[1], [⟨"ch", true, [⟨1, 2⟩]⟩], CTree.node 1 [1] [], fun _ => 0, fun _ => 0, []⟩
    ⟨[1], [⟨"other", true, [⟨1, 999⟩]⟩, ⟨"ch", true, [⟨1, 2⟩]⟩, ⟨"ch", false, [⟨1, 50⟩]⟩],
      CTree.node 1 [1] [], fun _ => 0, fun _ => 0, []⟩
    rfl rfl rfl rfl (by decide)).1

/-! ## The bottom-up collection walk computes subtree totals -/

theorem forestTotal_eq_sum (ps : Nat → Nat) (ts : List CTree) :
    forestTotal ps ts = (ts.map (treeTotal ps)).sum := by
  induction ts with
  | nil => rfl
  | cons t ts ih => rw [forestTotal, ih, List.map_cons, List.sum_cons]

theorem self_mem_subtreesT : ∀ (t : CTree), t ∈ subtreesT t
  | .node i pids cs => by
    rw [subtreesT]
    exact List.mem_cons_self _ _

theorem mem_subtreesF_of_mem (ts : List CTree) (c : CTree) (hc : c ∈ ts) :
    c ∈ subtreesF ts := by
  induction ts with
  | nil => cases hc
  | cons t ts ih =>
    rw [subtreesF]
    rcases List.mem_cons.mp hc with rfl | h
    · exact List.mem_append_left _ (self_mem_subtreesT c)
    · exact List.mem_append_right _ (ih h)

mutual
theorem rootId_mem_treeIds : ∀ (u t : CTree), u ∈ subtreesT t → u.rootId ∈ treeIds t
  | u, .node i pids cs, h => by
    rw [subtreesT] at h
    rw [treeIds]
    rcases List.mem_cons.mp h with rfl | h2
    · exact List.mem_cons_self _ _
    · exact List.mem_cons_of_mem _ (rootId_mem_forestIds u cs h2)

theorem rootId_mem_forestIds : ∀ (u : CTree) (ts : List CTree),
    u ∈ subtreesF ts → u.rootId ∈ forestIds ts
  | u, [], h => by
    rw [subtreesF] at h
    cases h
  | u, t :: ts, h => by
    rw [subtreesF] at h
    rw [forestIds]
    rcases List.mem_append.mp h with h1 | h2
    · exact List.mem_append_left _ (rootId_mem_treeIds u t h1)
    · exact List.mem_append_right _ (rootId_mem_forestIds u ts h2)
end

mutual
theorem subtreesT_trans : ∀ (t u : CTree), u ∈ subtreesT t →
    ∀ v ∈ subtreesT u, v ∈ subtreesT t
  | .node i pids cs, u, hu, v, hv => by
    rw [subtreesT] at hu ⊢
    rcases List.mem_cons.mp hu with rfl | h2
    · rw [subtreesT] at hv
      exact hv
    · exact List.mem_cons_of_mem _ (subtreesF_trans cs u h2 v hv)

theorem subtreesF_trans : ∀ (ts : List CTree) (u : CTree), u ∈ subtreesF ts →
    ∀ v ∈ subtreesT u, v ∈ subtreesF ts
  | [], u, hu, v, hv => by
    rw [subtreesF] at hu
    cases hu
  | t :: ts, u, hu, v, hv => by
    rw [subtreesF] at hu ⊢
    rcases List.mem_append.mp hu with h1 | h2
    · exact List.mem_append_left _ (subtreesT_trans t u h1 v hv)
    · exact List.mem_append_right _ (subtreesF_trans ts u h2 v hv)
end

mutual
theorem walkTree_frame (ps : Nat → Nat) : ∀ (t : CTree) (m : Nat → Nat) (x : Nat),
    x ∉ treeIds t → walkTree ps m t x = m x
  | .node i pids cs, m, x, hx => by
    rw [treeIds] at hx
    simp only [walkTree]
    have hxi : x ≠ i := fun heq => hx (by rw [heq]; exact List.mem_cons_self i _)
    rw [if_neg hxi,
      walkForest_frame ps cs m x fun h2 => hx (List.mem_cons_of_mem _ h2)]

theorem walkForest_frame (ps : Nat → Nat) : ∀ (ts : List CTree) (m : Nat → Nat) (x : Nat),
    x ∉ forestIds ts → walkForest ps m ts x = m x
  | [], m, x, _ => rfl
  | t :: ts, m, x, hx => by
    rw [forestIds] at hx
    rw [walkForest,
      walkForest_frame ps ts _ x fun h2 => hx (List.mem_append_right _ h2)]
    exact walkTree_frame ps t m x fun h1 => hx (List.mem_append_left _ h1)
end

mutual
theorem walkTree_correct (ps : Nat → Nat) : ∀ (t : CTree) (m : Nat → Nat) (u : CTree),
    (treeIds t).Nodup → u ∈ subtreesT t → walkTree ps m t u.rootId = treeTotal ps u
  | .node i pids cs, m, u, hnd, hu => by
    rw [treeIds] at hnd
    have hnotin : i ∉ forestIds cs := (List.nodup_cons.mp hnd).1
    have hndf : (forestIds cs).Nodup := (List.nodup_cons.mp hnd).2
    rw [subtreesT] at hu
    simp only [walkTree]
    rcases List.mem_cons.mp hu with rfl | h2
    · simp only [CTree.rootId]
      rw [if_pos trivial, treeTotal]
      congr 1
      have hmap : cs.map (walkForest ps m cs ∘ CTree.rootId) = cs.map (treeTotal ps) :=
        List.map_congr_left fun c hc =>
          walkForest_correct ps cs m c hndf (mem_subtreesF_of_mem cs c hc)
      rw [List.map_map, hmap, forestTotal_eq_sum]
    · have hne : u.rootId ≠ i := fun h => hnotin (h ▸ rootId_mem_forestIds u cs h2)
      rw [if_neg hne]
      exact walkForest_correct ps cs m u hndf h2

theorem walkForest_correct (ps : Nat → Nat) : ∀ (ts : List CTree) (m : Nat → Nat) (u : CTree),
    (forestIds ts).Nodup → u ∈ subtreesF ts → walkForest ps m ts u.rootId = treeTotal ps u
  | [], m, u, _, hu => by
    rw [subtreesF] at hu
    cases hu
  | t :: ts, m, u, hnd, hu => by
    rw [forestIds] at hnd
    rw [subtreesF] at hu
    rw [walkForest]
    rcases List.nodup_append.mp hnd with ⟨hnd1, hnd2, hdisj⟩
    rcases List.mem_append.mp hu with h1 | h2
    · have hx : u.rootId ∉ forestIds ts :=
        fun h => hdisj (rootId_mem_treeIds u t h1) h
      rw [walkForest_frame ps ts _ _ hx]
      exact walkTree_correct ps t m u hnd1 h1
    · exact walkForest_correct ps ts _ u hnd2 h2
end

/-- C2: after the score-calculation job, every collection in the tree holds
the bottom-up aggregate: its persisted score equals its direct product score
plus the sum of its children's persisted scores, and hence equals the total
over its whole subtree — every ancestor's score includes all descendants. -/
theorem collection_scores_bottom_up (token : String) (s : PopState)
    (hnd : (treeIds s.tree).Nodup) (i : Nat) (pids : List Nat) (cs : List CTree)
    (hu : CTree.node i pids cs ∈ subtreesT s.tree) :
    (runScoreCalculationJob token s).collectionScores i
      = directColScore (runScoreCalculationJob token s).productScores pids
        + ((cs.map CTree.rootId).map
            (runScoreCalculationJob token s).collectionScores).sum
    ∧ (runScoreCalculationJob token s).collectionScores i
      = treeTotal (runScoreCalculationJob token s).productScores
          (CTree.node i pids cs) := by
  have hcol : (runScoreCalculationJob token s).collectionScores
      = walkTree (runScoreCalculationJob token s).productScores
          s.collectionScores s.tree := rfl
  have hself : (runScoreCalculationJob token s).collectionScores i
      = treeTotal (runScoreCalculationJob token s).productScores
          (CTree.node i pids cs) := by
    rw [hcol]
    exact walkTree_correct _ s.tree s.collectionScores (CTree.node i pids cs) hnd hu
  refine ⟨?_, hself⟩
  rw [hself, treeTotal]
  congr 1
  have hchild : ∀ c ∈ cs, (runScoreCalculationJob token s).collectionScores c.rootId
      = treeTotal (runScoreCalculationJob token s).productScores c := by
    intro c hc
    rw [hcol]
    refine walkTree_correct _ s.tree s.collectionScores c hnd ?_
    refine subtreesT_trans s.tree (CTree.node i pids cs) hu c ?_
    rw [subtreesT]
    exact List.mem_cons_of_mem _ (mem_subtreesF_of_mem cs c hc)
  rw [List.map_map, forestTotal_eq_sum]
  exact (List.map_congr_left fun c hc => hchild c hc).symm ▸ rfl

/-- Witness for C2 on a concrete two-level tree: the child collection holds
its direct score and the root aggregates its own direct score plus the
child's. -/
theorem collection_scores_bottom_up_witness :
    (treeIds (CTree.node 1 [] [CTree.node 2 [10] []])).Nodup
    ∧ ((runScoreCalculationJob "ch"
          ⟨[10], [⟨"ch", true, [⟨10, 4⟩]⟩],
            CTree.node 1 [] [CTree.node 2 [10] []],
            fun _ => 0, fun _ => 0, []⟩).collectionScores 1
        = directColScore (runScoreCalculationJob "ch"
            ⟨[10], [⟨"ch", true, [⟨10, 4⟩]⟩],
              CTree.node 1 [] [CTree.node 2 [10] []],
              fun _ => 0, fun _ => 0, []⟩).productScores []
          + (([CTree.node 2 [10] []].map CTree.rootId).map
              (runScoreCalculationJob "ch"
                ⟨[10], [⟨"ch", true, [⟨10, 4⟩]⟩],
                  CTree.node 1 [] [CTree.node 2 [10] []],
                  fun _ => 0, fun _ => 0, []⟩).collectionScores).sum) := by
  refine ⟨by decide, ?_⟩
  exact (collection_scores_bottom_up "ch"
    ⟨[10], [⟨"ch", true, [⟨10, 4⟩]⟩], CTree.node 1 [] [CTree.node 2 [10] []],
      fun _ => 0, fun _ => 0, []⟩ (by decide) 1 [] [CTree.node 2 [10] []]
    (self_mem_subtreesT _)).1

/-- Counterexample to C4: from a consistent state, settling a new order (an
underlying-data change with no accompanying HTTP trigger) leaves the persisted
score stale (0, while the channel's order history now yields 1000), enqueues
no job, and running the job queue is a no-op — no recomputation ever follows
the change. -/
theorem popularity_no_auto_recompute_counterexample :
    ((popStep ⟨[1], [], CTree.node 1 [1] [], fun _ => 0, fun _ => 0, []⟩
        (.addSettledOrder ⟨"ch", true, [⟨1, 5⟩]⟩)).productScores 1 = 0)
    ∧ (productScore "ch"
        (popStep ⟨[1], [], CTree.node 1 [1] [], fun _ => 0, fun _ => 0, []⟩
          (.addSettledOrder ⟨"ch", true, [⟨1, 5⟩]⟩)).orders [1] 1 = 1000)
    ∧ ((popStep ⟨[1], [], CTree.node 1 [1] [], fun _ => 0, fun _ => 0, []⟩
        (.addSettledOrder ⟨"ch", true, [⟨1, 5⟩]⟩)).jobQueue = [])
    ∧ ((popRun ⟨[1], [], CTree.node 1 [1] [], fun _ => 0, fun _ => 0, []⟩
          [.addSettledOrder ⟨"ch", true, [⟨1, 5⟩]⟩, .runNextJob]).productScores 1
        = 0) := by
  refine ⟨by decide, by decide, by decide, by decide⟩

/-- C4 as amended: recomputation is driven solely by the explicit HTTP
trigger — a change of the underlying order data by itself changes no persisted
score and enqueues no job, while an HTTP trigger followed by the host running
the queued job performs the recomputation. -/
theorem popularity_recompute_only_on_trigger (s : PopState) (o : SOrder)
    (ctx : Ctx) (token : String) (hq : s.jobQueue = []) :
    ((popStep s (.addSettledOrder o)).productScores = s.productScores
      ∧ (popStep s (.addSettledOrder o)).collectionScores = s.collectionScores
      ∧ (popStep s (.addSettledOrder o)).jobQueue = s.jobQueue)
    ∧ popRun s [.httpCalculateScores ctx token, .runNextJob]
        = runScoreCalculationJob token s := by
  refine ⟨⟨rfl, rfl, rfl⟩, ?_⟩
  cases s with
  | mk pr orders tr ps cs jq =>
    change jq = [] at hq
    subst hq
    rfl

/-- Witness for the amended C4 at a concrete state, order and trigger. -/
theorem popularity_recompute_only_on_trigger_witness :
    (([] : List SJob) = [])
    ∧ popRun ⟨[1], [], CTree.node 1 [1] [], fun _ => 0, fun _ => 0, []⟩
        [.httpCalculateScores ⟨0⟩ "ch", .runNextJob]
        = runScoreCalculationJob "ch"
            ⟨[1], [], CTree.node 1 [1] [], fun _ => 0, fun _ => 0, []⟩ :=
  ⟨rfl, (popularity_recompute_only_on_trigger
    ⟨[1], [], CTree.node 1 [1] [], fun _ => 0, fun _ => 0, []⟩
    ⟨"ch", true, [⟨1, 5⟩]⟩ ⟨0⟩ "ch" rfl).2⟩

end PinelabPopularity

namespace StripeSub

/-! ## Lemmas about the stripe-subscription service -/

theorem mem_updateOrderById (w : StripeWorld) (oid : Nat) (f : VOrder → VOrder)
    (o : VOrder) (ho : o ∈ w.orders) (hid : o.id = oid) :
    f o ∈ (updateOrderById w oid f).orders := by
  have h := List.mem_map_of_mem (fun o => if o.id = oid then f o else o) ho
  simp only [hid, eq_self_iff_true, if_true] at h
  exact h

theorem logOrderHistory_orders (w : StripeWorld) (oid : Nat) (note : String) :
    (logOrderHistory w oid note).orders = w.orders := rfl

theorem mem_logOrderHistory_history (w : StripeWorld) (oid : Nat) (note : String) :
    (⟨oid, note⟩ : HistoryEntry) ∈ (logOrderHistory w oid note).history := by
  simp [logOrderHistory]

theorem getStripeHandler_eq_of_pm (w1 w2 : StripeWorld) (code : String)
    (h : w1.paymentMethods = w2.paymentMethods) :
    getStripeHandler w1 code = getStripeHandler w2 code := by
  unfold getStripeHandler getPaymentMethodByCode
  rw [h]

/-- Shape of the world produced by `handlePaymentCompleteEvent` on the
complete path: the order is transitioned when needed, the payment is
appended, and some history note is logged for the order. -/
theorem handlePaymentCompleteEvent_complete_shape (w : StripeWorld)
    (ev : CheckoutEventData) (order : VOrder)
    (hoc : strTruthy ev.metadata.orderCode = true)
    (hct : strTruthy ev.metadata.channelToken = true)
    (hfind : findOneByCode w (ev.metadata.orderCode.getD "") = some order)
    (hpm : strTruthy ev.metadata.paymentMethodCode = true)
    (hst : ev.status = "complete")
    (htr : w.transitionOk = true)
    (hap : w.addPaymentOk = true) :
    ∃ note,
      (handlePaymentCompleteEvent w ev).2.1
        = logOrderHistory
            (updateOrderById
              (if order.state = "ArrangingPayment" then w
               else updateOrderById w order.id fun o => { o with state := "ArrangingPayment" })
              order.id fun o =>
                { o with payments := o.payments
                    ++ [⟨ev.metadata.paymentMethodCode.getD "", ev.subscription⟩] })
            order.id note := by
  by_cases hsord : order.state = "ArrangingPayment" <;>
    · unfold handlePaymentCompleteEvent
      simp only [hoc, hct, hpm, hfind, hst, htr, hap, hsord, not_true, ite_false,
        Bool.not_eq_true, Bool.false_eq_true, if_false, if_true, ne_eq,
        not_false_iff, ite_true]
      split
      · exact ⟨_, rfl⟩
      · split
        · exact ⟨_, rfl⟩
        · split
          · exact ⟨_, rfl⟩
          · exact ⟨_, rfl⟩

end StripeSub

namespace StripeSub

/-- C5: for a checkout webhook event with valid orderCode, channelToken and
paymentMethodCode metadata and status complete, `handlePaymentCompleteEvent`
brings the identified order into the ArrangingPayment state (transitioning it
when it is not already there), adds a payment with the given payment method
and the event's subscription id, and records an order-history entry. -/
theorem webhook_complete_settles_order (w : StripeWorld) (ev : CheckoutEventData)
    (order : VOrder)
    (hoc : strTruthy ev.metadata.orderCode = true)
    (hct : strTruthy ev.metadata.channelToken = true)
    (hfind : findOneByCode w (ev.metadata.orderCode.getD "") = some order)
    (hpm : strTruthy ev.metadata.paymentMethodCode = true)
    (hst : ev.status = "complete")
    (htr : w.transitionOk = true)
    (hap : w.addPaymentOk = true) :
    (∃ o ∈ (handlePaymentCompleteEvent w ev).2.1.orders,
        o.id = order.id ∧ o.state = "ArrangingPayment"
          ∧ (⟨ev.metadata.paymentMethodCode.getD "", ev.subscription⟩ : SPayment)
              ∈ o.payments)
    ∧ ∃ e ∈ (handlePaymentCompleteEvent w ev).2.1.history,
        e.orderId = order.id := by
  obtain ⟨note, hw⟩ := handlePaymentCompleteEvent_complete_shape w ev order
    hoc hct hfind hpm hst htr hap
  rw [hw]
  have hord : order ∈ w.orders := List.mem_of_find?_eq_some hfind
  constructor
  · rw [logOrderHistory_orders]
    by_cases hsord : order.state = "ArrangingPayment"
    · rw [if_pos hsord]
      refine ⟨_, mem_updateOrderById w order.id _ order hord rfl, rfl, hsord, ?_⟩
      simp
    · rw [if_neg hsord]
      refine ⟨_, mem_updateOrderById _ order.id _ _
        (mem_updateOrderById w order.id
          (fun o => { o with state := "ArrangingPayment" }) order hord rfl) rfl,
        rfl, rfl, ?_⟩
      simp
  · exact ⟨⟨order.id, note⟩, mem_logOrderHistory_history _ _ _, rfl⟩

/-- Witness for C5: the concrete example world and complete event — the order
ends in ArrangingPayment with the subscription payment and a history entry. -/
theorem webhook_complete_settles_order_witness :
    strTruthy exampleEvent.metadata.orderCode = true
    ∧ ((∃ o ∈ (handlePaymentCompleteEvent exampleWorld exampleEvent).2.1.orders,
          o.id = exampleOrder.id ∧ o.state = "ArrangingPayment"
            ∧ (⟨exampleEvent.metadata.paymentMethodCode.getD "",
                exampleEvent.subscription⟩ : SPayment) ∈ o.payments)
        ∧ ∃ e ∈ (handlePaymentCompleteEvent exampleWorld exampleEvent).2.1.history,
            e.orderId = exampleOrder.id) :=
  ⟨by decide, webhook_complete_settles_order exampleWorld exampleEvent exampleOrder
    (by decide) (by decide) (by decide) (by decide) (by decide) (by decide)
    (by decide)⟩

end StripeSub

namespace StripeSub

/-- C6: with an active order that has lines, a customer and a shipping line,
and a payment method with apiKey and redirectUrl configured,
`createStripeSubscriptionPaymentLink` creates a checkout session at the
payment provider and returns its url; when the created session has no url it
throws. -/
theorem payment_link_created (w : StripeWorld) (pmc : String) (order : VOrder)
    (cust : SCustomer) (cfg : StripeHandlerConfig)
    (hao : w.activeOrder = some order)
    (hlines : order.lines ≠ [])
    (hcust : order.customer = some cust)
    (hship : order.shippingLines ≠ [])
    (hh : getStripeHandler w pmc = .ok cfg) :
    (∀ url, w.sessionUrl = some url →
      createStripeSubscriptionPaymentLink w pmc
        = (.ok url, [.createCheckoutSession order.code w.channelToken pmc]))
    ∧ (w.sessionUrl = none →
      createStripeSubscriptionPaymentLink w pmc
        = (.error (.failure "Failed to create payment link"),
            [.createCheckoutSession order.code w.channelToken pmc])) := by
  have hl : ¬ order.lines.length = 0 := by simpa using hlines
  have hs : ¬ order.shippingLines.length = 0 := by simpa using hship
  unfold createStripeSubscriptionPaymentLink
  simp only [hao, hcust, hh, if_neg hl, if_neg hs]
  constructor
  · intro url hurl
    rw [hurl]
  · intro hnone
    rw [hnone]

/-- Witness for C6: on the concrete example world the returned link is the
session url the provider reports. -/
theorem payment_link_created_witness :
    exampleWorld.activeOrder = some exampleOrder
    ∧ createStripeSubscriptionPaymentLink exampleWorld "stripe-sub"
        = (.ok "https://pay.example",
            [.createCheckoutSession exampleOrder.code exampleWorld.channelToken
              "stripe-sub"]) :=
  ⟨by decide,
    (payment_link_created exampleWorld "stripe-sub" exampleOrder
      ⟨"c@example.com"⟩ ⟨"sk_123", "https://shop.example", none, none⟩
      (by decide) (by decide) (by decide) (by decide) rfl).1
      "https://pay.example" (by decide)⟩

/-- C8: `createStripeSubscriptionPaymentLink` throws a UserInputError before
contacting the payment provider when the session has no active order, the
order has no lines, no customer, or no shipping lines — in each case no
checkout session is created (no provider call is made) and no state is
modified. -/
theorem payment_link_guards (w : StripeWorld) (pmc : String) :
    (w.activeOrder = none →
      createStripeSubscriptionPaymentLink w pmc
        = (.error (.userInput "No active order for session"), []))
    ∧ (∀ order, w.activeOrder = some order → order.lines = [] →
      createStripeSubscriptionPaymentLink w pmc
        = (.error (.userInput "Cannot create payment intent for empty order"), []))
    ∧ (∀ order, w.activeOrder = some order → order.lines ≠ [] →
        order.customer = none →
      createStripeSubscriptionPaymentLink w pmc
        = (.error (.userInput "Cannot create payment intent for order without customer"),
            []))
    ∧ (∀ order cust, w.activeOrder = some order → order.lines ≠ [] →
        order.customer = some cust → order.shippingLines = [] →
      createStripeSubscriptionPaymentLink w pmc
        = (.error (.userInput "Cannot create payment intent for order without shippingMethod"),
            [])) := by
  refine ⟨?_, ?_, ?_, ?_⟩
  · intro hnone
    unfold createStripeSubscriptionPaymentLink
    rw [hnone]
  · intro order hao hl
    unfold createStripeSubscriptionPaymentLink
    simp [hao, hl]
  · intro order hao hl hc
    unfold createStripeSubscriptionPaymentLink
    simp [hao, hc, hl]
  · intro order cust hao hl hc hs
    unfold createStripeSubscriptionPaymentLink
    simp [hao, hc, hs, hl]

/-- Witness for C8: a world with no active order yields the UserInputError
and makes no provider call. -/
theorem payment_link_guards_witness :
    (⟨"ch", none, [], [], [], true, true, true, none⟩ : StripeWorld).activeOrder = none
    ∧ createStripeSubscriptionPaymentLink
        ⟨"ch", none, [], [], [], true, true, true, none⟩ "stripe-sub"
        = (.error (.userInput "No active order for session"), []) :=
  ⟨rfl, (payment_link_guards ⟨"ch", none, [], [], [], true, true, true, none⟩
    "stripe-sub").1 rfl⟩

end StripeSub

namespace StripeSub

/-- C9: an event with valid metadata and an existing order whose status is
not complete is ignored — the handler returns without changing anything; the
orderCode, channelToken, order-existence and paymentMethodCode checks all
precede the status check, so an event failing any of them throws regardless
of its status. -/
theorem webhook_status_check_order (w : StripeWorld) (ev : CheckoutEventData) :
    (∀ order, strTruthy ev.metadata.orderCode = true →
      strTruthy ev.metadata.channelToken = true →
      findOneByCode w (ev.metadata.orderCode.getD "") = some order →
      strTruthy ev.metadata.paymentMethodCode = true →
      ev.status ≠ "complete" →
      handlePaymentCompleteEvent w ev = (.ok (), w, []))
    ∧ (strTruthy ev.metadata.orderCode = false →
      handlePaymentCompleteEvent w ev
        = (.error (.failure "Incoming webhook is missing metadata.orderCode, cannot process this event"),
            w, []))
    ∧ (strTruthy ev.metadata.orderCode = true →
        strTruthy ev.metadata.channelToken = false →
      handlePaymentCompleteEvent w ev
        = (.error (.failure "Incoming webhook is missing metadata.channelToken, cannot process this event"),
            w, []))
    ∧ (strTruthy ev.metadata.orderCode = true →
        strTruthy ev.metadata.channelToken = true →
        findOneByCode w (ev.metadata.orderCode.getD "") = none →
      handlePaymentCompleteEvent w ev
        = (.error (.failure ("Cannot find order with code " ++ ev.metadata.orderCode.getD "")),
            w, []))
    ∧ (∀ order, strTruthy ev.metadata.orderCode = true →
        strTruthy ev.metadata.channelToken = true →
        findOneByCode w (ev.metadata.orderCode.getD "") = some order →
        strTruthy ev.metadata.paymentMethodCode = false →
      handlePaymentCompleteEvent w ev
        = (.error (.failure "Incoming webhook is missing metadata.paymentMethodCode, cannot process this event"),
            w, [])) := by
  refine ⟨?_, ?_, ?_, ?_, ?_⟩
  · intro order hoc hct hfind hpm hst
    unfold handlePaymentCompleteEvent
    simp [hoc, hct, hfind, hpm, hst]
  · intro hoc
    unfold handlePaymentCompleteEvent
    simp [hoc]
  · intro hoc hct
    unfold handlePaymentCompleteEvent
    simp [hoc, hct]
  · intro hoc hct hfind
    unfold handlePaymentCompleteEvent
    simp [hoc, hct, hfind]
  · intro order hoc hct hfind hpm
    unfold handlePaymentCompleteEvent
    simp [hoc, hct, hfind, hpm]

/-- Witness for C9: a valid event with status open is ignored, and an event
with no orderCode throws even though its status is open too. -/
theorem webhook_status_check_order_witness :
    handlePaymentCompleteEvent exampleWorld
        ⟨⟨some "ORD1", some "ch", some "stripe-sub", some 100⟩, "open", "sub_1"⟩
      = (.ok (), exampleWorld, [])
    ∧ handlePaymentCompleteEvent exampleWorld
        ⟨⟨none, some "ch", some "stripe-sub", some 100⟩, "open", "sub_1"⟩
      = (.error (.failure "Incoming webhook is missing metadata.orderCode, cannot process this event"),
          exampleWorld, []) :=
  ⟨(webhook_status_check_order exampleWorld
      ⟨⟨some "ORD1", some "ch", some "stripe-sub", some 100⟩, "open", "sub_1"⟩).1
      exampleOrder (by decide) (by decide) (by decide) (by decide) (by decide),
    (webhook_status_check_order exampleWorld
      ⟨⟨none, some "ch", some "stripe-sub", some 100⟩, "open", "sub_1"⟩).2.1
      (by decide)⟩

end StripeSub

namespace StripeSub

theorem getStripeHandler_updateOrderById (w : StripeWorld) (oid : Nat)
    (f : VOrder → VOrder) (code : String) :
    getStripeHandler (updateOrderById w oid f) code = getStripeHandler w code :=
  getStripeHandler_eq_of_pm _ _ _ rfl

/-- C10: on a complete event without metadata.endDate the handler still adds
the payment and returns normally, recording a failure note (and making no
provider call); a failure of the subscription update at the provider is
re-thrown, and only after a failure note is recorded. -/
theorem webhook_end_date_failures (w : StripeWorld) (ev : CheckoutEventData)
    (order : VOrder)
    (hoc : strTruthy ev.metadata.orderCode = true)
    (hct : strTruthy ev.metadata.channelToken = true)
    (hfind : findOneByCode w (ev.metadata.orderCode.getD "") = some order)
    (hpm : strTruthy ev.metadata.paymentMethodCode = true)
    (hst : ev.status = "complete")
    (htr : w.transitionOk = true)
    (hap : w.addPaymentOk = true) :
    (natTruthy ev.metadata.endDate = false →
      (handlePaymentCompleteEvent w ev).1 = .ok ()
      ∧ (∃ o ∈ (handlePaymentCompleteEvent w ev).2.1.orders,
          o.id = order.id
            ∧ (⟨ev.metadata.paymentMethodCode.getD "", ev.subscription⟩ : SPayment)
                ∈ o.payments)
      ∧ (⟨order.id, "!! Failed to set subscription end date for subscription "
            ++ ev.subscription ++ "!"⟩ : HistoryEntry)
          ∈ (handlePaymentCompleteEvent w ev).2.1.history
      ∧ (handlePaymentCompleteEvent w ev).2.2 = [])
    ∧ (∀ cfg, natTruthy ev.metadata.endDate = true →
        getStripeHandler w (ev.metadata.paymentMethodCode.getD "") = .ok cfg →
        w.stripeUpdateOk = false →
        (handlePaymentCompleteEvent w ev).1
            = .error (.failure "stripe subscription update failed")
        ∧ (⟨order.id, "!! Failed to set subscription end date for subscription "
              ++ ev.subscription ++ ": stripe subscription update failed"⟩ : HistoryEntry)
            ∈ (handlePaymentCompleteEvent w ev).2.1.history) := by
  have hord : order ∈ w.orders := List.mem_of_find?_eq_some hfind
  constructor
  · intro hend
    by_cases hsord : order.state = "ArrangingPayment" <;>
    · unfold handlePaymentCompleteEvent
      simp only [hoc, hct, hpm, hfind, hst, htr, hap, hsord, hend, not_true,
        ite_false, Bool.not_eq_true, Bool.false_eq_true, if_false, if_true,
        ne_eq, not_false_iff, ite_true]
      refine ⟨trivial, ?_, ?_, trivial⟩
      · rw [logOrderHistory_orders]
        first
        | exact ⟨_, mem_updateOrderById w order.id _ order hord rfl, rfl, by simp⟩
        | exact ⟨_, mem_updateOrderById _ order.id _ _
            (mem_updateOrderById w order.id
              (fun o => { o with state := "ArrangingPayment" }) order hord rfl) rfl,
            rfl, by simp⟩
      · exact mem_logOrderHistory_history _ _ _
  · intro cfg hend hgh hupd
    by_cases hsord : order.state = "ArrangingPayment" <;>
    · unfold handlePaymentCompleteEvent
      simp only [hoc, hct, hpm, hfind, hst, htr, hap, hsord, hend, hupd,
        getStripeHandler_updateOrderById, hgh, not_true, ite_false,
        Bool.not_eq_true, Bool.false_eq_true, if_false, if_true, ne_eq,
        not_false_iff, ite_true]
      exact ⟨trivial, mem_logOrderHistory_history _ _ _⟩

/-- Witness for C10: the concrete example world with an event lacking
endDate — the payment is added, the handler returns ok, and the failure note
is in the history. -/
theorem webhook_end_date_failures_witness :
    natTruthy (⟨⟨some "ORD1", some "ch", some "stripe-sub", none⟩,
        "complete", "sub_1"⟩ : CheckoutEventData).metadata.endDate = false
    ∧ ((handlePaymentCompleteEvent exampleWorld
          ⟨⟨some "ORD1", some "ch", some "stripe-sub", none⟩, "complete", "sub_1"⟩).1
          = .ok ()
        ∧ (∃ o ∈ (handlePaymentCompleteEvent exampleWorld
              ⟨⟨some "ORD1", some "ch", some "stripe-sub", none⟩, "complete", "sub_1"⟩).2.1.orders,
            o.id = exampleOrder.id
              ∧ (⟨(⟨⟨some "ORD1", some "ch", some "stripe-sub", none⟩, "complete",
                    "sub_1"⟩ : CheckoutEventData).metadata.paymentMethodCode.getD "",
                  "sub_1"⟩ : SPayment) ∈ o.payments)
        ∧ (⟨exampleOrder.id, "!! Failed to set subscription end date for subscription "
              ++ "sub_1" ++ "!"⟩ : HistoryEntry)
            ∈ (handlePaymentCompleteEvent exampleWorld
                ⟨⟨some "ORD1", some "ch", some "stripe-sub", none⟩, "complete", "sub_1"⟩).2.1.history
        ∧ (handlePaymentCompleteEvent exampleWorld
            ⟨⟨some "ORD1", some "ch", some "stripe-sub", none⟩, "complete", "sub_1"⟩).2.2 = []) :=
  ⟨rfl, (webhook_end_date_failures exampleWorld
    ⟨⟨some "ORD1", some "ch", some "stripe-sub", none⟩, "complete", "sub_1"⟩
    exampleOrder (by decide) (by decide) (by decide) (by decide) (by decide)
    (by decide) (by decide)).1 rfl⟩

end StripeSub
